import Mathlib

/-!
Verification of the two pieces of logic in `src/Map/__init__.py`:
the resolution-string normalization (`Map.check_for_digits`, `Map.check_res`)
and the hemisphere split performed inside `Map.barbs` before rendering.
The Python functions are embedded shallowly: strings stay strings, numeric
grids become lists of lists of rationals, and the not-a-number sentinel that
masks a grid cell is represented by `none` in `Option ℚ`.
-/

/-- Embedding of `Map.check_for_digits`: scan the characters of `text`,
setting the flag when a decimal digit is seen (Python `str.isdigit` on the
single character), and return the flag. -/
def check_for_digits (text : String) : Bool :=
  text.data.foldl (fun check i => if i.isDigit then true else check) false

/-- Embedding of `Map.check_res`: if the resolution string contains a digit it
is returned unchanged; otherwise the symbolic token is converted using
cartopy scales (`counties = false`) or MetPy county scales (`counties = true`). -/
def check_res (res : String) (counties : Bool) : String :=
  if check_for_digits res = true then
    res
  else
    if counties = false then
      if res = "l" then "110m"
      else if res = "h" then "10m"
      else "50m"
    else
      if res = "l" then "20m"
      else if res = "h" then "500k"
      else "5m"

/-- The character-scan loop of `check_for_digits`, started from any flag value,
computes the disjunction of the flag with "some character is a digit". -/
lemma check_for_digits_foldl (b : Bool) (l : List Char) :
    l.foldl (fun check i => if i.isDigit then true else check) b
      = (b || l.any (fun c => c.isDigit)) := by
  induction l generalizing b with
  | nil => simp
  | cons c l ih =>
    simp only [List.foldl_cons, List.any_cons, ih]
    cases hc : c.isDigit <;> cases b <;> simp

/-- `check_for_digits` is the existence of a digit character in the string. -/
lemma check_for_digits_eq_true_iff (s : String) :
    check_for_digits s = true ↔ ∃ ch, ch ∈ s.data ∧ ch.isDigit = true := by
  rw [check_for_digits, check_for_digits_foldl]
  simp [List.any_eq_true]

/-- `check_for_digits` is false exactly when no character is a digit. -/
lemma check_for_digits_eq_false_iff (s : String) :
    check_for_digits s = false ↔ ∀ ch ∈ s.data, ch.isDigit = false := by
  rw [← Bool.not_eq_true, check_for_digits_eq_true_iff]
  push_neg
  simp

/-- C1: on a token with no digit character, `check_res` realizes exactly the
fixed mapping table: with `counties = false`, `"l" ↦ "110m"`, `"h" ↦ "10m"`,
everything else (including `"m"`) `↦ "50m"`; with `counties = true`,
`"l" ↦ "20m"`, `"h" ↦ "500k"`, everything else `↦ "5m"`. -/
theorem check_res_table (res : String)
    (hnd : ∀ ch ∈ res.data, ch.isDigit = false) :
    (res = "l" → check_res res false = "110m" ∧ check_res res true = "20m") ∧
    (res = "h" → check_res res false = "10m" ∧ check_res res true = "500k") ∧
    (res ≠ "l" → res ≠ "h" →
      check_res res false = "50m" ∧ check_res res true = "5m") := by
  have hd : check_for_digits res = false :=
    (check_for_digits_eq_false_iff res).mpr hnd
  refine ⟨fun hl => ?_, fun hh => ?_, fun hl hh => ?_⟩
  · subst hl; simp [check_res, hd]
  · subst hh; simp [check_res, hd]
  · simp [check_res, hd, hl, hh]

/-- Witness for C1 at the tokens `"m"`, `"l"`, `"h"`. -/
theorem check_res_table_witness :
    ((∀ ch ∈ ("m" : String).data, ch.isDigit = false) ∧
      check_res "m" false = "50m" ∧ check_res "m" true = "5m") ∧
    ((∀ ch ∈ ("l" : String).data, ch.isDigit = false) ∧
      check_res "l" false = "110m" ∧ check_res "l" true = "20m") ∧
    ((∀ ch ∈ ("h" : String).data, ch.isDigit = false) ∧
      check_res "h" false = "10m" ∧ check_res "h" true = "500k") :=
  ⟨⟨by decide,
    (check_res_table "m" (by decide)).2.2 (by decide) (by decide)⟩,
   ⟨by decide, (check_res_table "l" (by decide)).1 rfl⟩,
   ⟨by decide, (check_res_table "h" (by decide)).2.1 rfl⟩⟩

/-- C5: on any string containing at least one decimal digit character,
`check_res` is the identity, for both values of `counties`. -/
theorem check_res_digit_identity (s : String) (c : Bool)
    (hdig : ∃ ch, ch ∈ s.data ∧ ch.isDigit = true) :
    check_res s c = s := by
  have hd : check_for_digits s = true :=
    (check_for_digits_eq_true_iff s).mpr hdig
  simp [check_res, hd]

/-- Witness for C5 at `"50m"` and `"500k"`. -/
theorem check_res_digit_identity_witness :
    ((∃ ch, ch ∈ ("50m" : String).data ∧ ch.isDigit = true) ∧
      check_res "50m" false = "50m") ∧
    ((∃ ch, ch ∈ ("500k" : String).data ∧ ch.isDigit = true) ∧
      check_res "500k" true = "500k") :=
  ⟨⟨⟨'5', by decide, by decide⟩,
      check_res_digit_identity "50m" false ⟨'5', by decide, by decide⟩⟩,
   ⟨⟨'5', by decide, by decide⟩,
      check_res_digit_identity "500k" true ⟨'5', by decide, by decide⟩⟩⟩

/-- C7: `check_res` is total with no failure path: every non-digit token other
than `"l"` and `"h"` silently yields the default bucket (`"50m"` for
`counties = false`, `"5m"` for `counties = true`), in particular the
unrecognized token `"xyz"` and the empty string. -/
theorem check_res_total_default :
    (∀ (res : String) (c : Bool), (∀ ch ∈ res.data, ch.isDigit = false) →
      res ≠ "l" → res ≠ "h" →
      check_res res c = if c then "5m" else "50m") ∧
    check_res "xyz" false = "50m" ∧
    check_res "" false = "50m" ∧ check_res "" true = "5m" := by
  refine ⟨fun res c hnd hl hh => ?_, by decide, by decide, by decide⟩
  have hd : check_for_digits res = false :=
    (check_for_digits_eq_false_iff res).mpr hnd
  cases c <;> simp [check_res, hd, hl, hh]

/-- Witness for C7 at the unrecognized token `"abc"` with `counties = true`. -/
theorem check_res_total_default_witness :
    (∀ ch ∈ ("abc" : String).data, ch.isDigit = false) ∧
    ("abc" : String) ≠ "l" ∧ ("abc" : String) ≠ "h" ∧
    check_res "abc" true = (if true then "5m" else "50m") :=
  ⟨by decide, by decide, by decide,
    check_res_total_default.1 "abc" true (by decide) (by decide) (by decide)⟩

/-! ## Hemisphere split inside `Map.barbs`

The split works on longitude/latitude grids of rationals.  A grid argument is
either 1-dimensional (a list) or 2-dimensional (a list of rows), mirroring the
`len(np.array(x).shape)` dimensionality test of the source.  Masked outputs
live in `Option ℚ`: `none` is the `np.nan` missing-value sentinel. -/

/-- A 2-dimensional numeric grid (list of rows). -/
abbrev QGrid := List (List ℚ)

/-- A 2-dimensional grid whose cells may hold the missing-value sentinel. -/
abbrev OGrid := List (List (Option ℚ))

/-- A lon/lat argument to `Map.barbs`: 1-dimensional or 2-dimensional. -/
inductive Grid where
  | one : List ℚ → Grid
  | two : QGrid → Grid

/-- Dimensionality of a grid argument, as `len(np.array(x).shape)`. -/
def Grid.ndim : Grid → Nat
  | .one _ => 1
  | .two _ => 2

/-- First component of `np.meshgrid(lon, lat)`: row `i`, column `j` holds
`lon[j]`; shape `(len lat, len lon)`. -/
def meshgridX (lon lat : List ℚ) : QGrid :=
  lat.map (fun _ => lon)

/-- Second component of `np.meshgrid(lon, lat)`: row `i`, column `j` holds
`lat[i]`; shape `(len lat, len lon)`. -/
def meshgridY (lon lat : List ℚ) : QGrid :=
  lat.map (fun y => lon.map (fun _ => y))

/-- The boolean mask `np.logical_or(lat < 0.0, lat == 90.0)` applied to the
cells that the northern copy suppresses. -/
def northMask (lat : ℚ) : Bool :=
  decide (lat < 0) || decide (lat = 90)

/-- The boolean mask `np.logical_or(lat > 0.0, lat == -90.0)` applied to the
cells that the southern copy suppresses. -/
def southMask (lat : ℚ) : Bool :=
  decide (lat > 0) || decide (lat = -90)

/-- In-place masked assignment `g[mask(lat2)] = np.nan`, elementwise: a cell
becomes the sentinel where its latitude satisfies the mask and keeps its value
elsewhere. -/
def applyMask (mask : ℚ → Bool) (lat2 : QGrid) (g : OGrid) : OGrid :=
  List.zipWith
    (fun lrow grow => List.zipWith (fun l x => if mask l then none else x) lrow grow)
    lat2 g

/-- View a sentinel-free numeric grid as an `OGrid` (every cell present). -/
def toOGrid (g : QGrid) : OGrid :=
  g.map (fun row => row.map some)

/-- The data produced by the split portion of `Map.barbs`: the 2-dimensional
lon/lat grids handed to the renderer, the four masked component copies, and the
`flip_barb` option of each of the two render calls (set only for the southern
one). -/
structure SplitResult where
  lon2 : QGrid
  lat2 : QGrid
  u_north : OGrid
  v_north : OGrid
  flip_north : Bool
  u_south : OGrid
  v_south : OGrid
  flip_south : Bool
deriving DecidableEq

/-- The masking stage of `Map.barbs` once lon/lat are known to be
2-dimensional: copy `u`/`v`, suppress the northern mask cells for the first
render call and the southern mask cells for the second, which alone receives
`flip_barb = True`. -/
def splitOn2D (lon2 lat2 : QGrid) (u v : QGrid) : SplitResult :=
  { lon2 := lon2
    lat2 := lat2
    u_north := applyMask northMask lat2 (toOGrid u)
    v_north := applyMask northMask lat2 (toOGrid v)
    flip_north := false
    u_south := applyMask southMask lat2 (toOGrid u)
    v_south := applyMask southMask lat2 (toOGrid v)
    flip_south := true }

/-- Embedding of the data path of `Map.barbs`: mesh-expand two 1-dimensional
lon/lat arguments, keep two 2-dimensional ones, and raise the source's
`ValueError` otherwise; then mask per hemisphere. -/
def barbsSplit (lon lat : Grid) (u v : QGrid) : Except String SplitResult :=
  match lon, lat with
  | .one lon1, .one lat1 =>
      .ok (splitOn2D (meshgridX lon1 lat1) (meshgridY lon1 lat1) u v)
  | .two lon2, .two lat2 =>
      .ok (splitOn2D lon2 lat2 u v)
  | _, _ =>
      .error "Both lon and lat must have the same number of dimensions"

/-- Cell access in a 2-dimensional grid: `some` the entry at row `i`,
column `j` when both indices are in range. -/
def cell? (g : List (List α)) (i j : Nat) : Option α :=
  match g[i]? with
  | some row => row[j]?
  | none => none

/-- Unfolding of a successful `cell?` access into its row access. -/
lemma cell?_eq_some {g : List (List α)} {i j : Nat} {x : α}
    (h : cell? g i j = some x) : ∃ row, g[i]? = some row ∧ row[j]? = some x := by
  unfold cell? at h
  cases hr : g[i]? with
  | none => rw [hr] at h; exact absurd h (by simp)
  | some row => rw [hr] at h; exact ⟨row, rfl, h⟩

/-- `zipWith` at an index where both lists are defined. -/
lemma getElem?_zipWith_some {f : α → β → γ} {l₁ : List α} {l₂ : List β}
    {j : Nat} {a : α} {b : β} (h₁ : l₁[j]? = some a) (h₂ : l₂[j]? = some b) :
    (List.zipWith f l₁ l₂)[j]? = some (f a b) := by
  induction l₁ generalizing l₂ j with
  | nil => simp at h₁
  | cons x xs ih =>
    cases l₂ with
    | nil => simp at h₂
    | cons y ys =>
      cases j with
      | zero =>
        simp only [List.getElem?_cons_zero, Option.some.injEq] at h₁ h₂
        simp [h₁, h₂]
      | succ j =>
        simp only [List.getElem?_cons_succ] at h₁ h₂
        simpa using ih h₁ h₂

/-- A cell of a masked grid: the sentinel where the latitude satisfies the
mask, the original cell elsewhere. -/
lemma cell?_applyMask {mask : ℚ → Bool} {lat2 : QGrid} {g : OGrid}
    {i j : Nat} {l : ℚ} {x : Option ℚ}
    (hl : cell? lat2 i j = some l) (hg : cell? g i j = some x) :
    cell? (applyMask mask lat2 g) i j = some (if mask l then none else x) := by
  obtain ⟨lrow, h1, h2⟩ := cell?_eq_some hl
  obtain ⟨grow, h3, h4⟩ := cell?_eq_some hg
  have hrow :
      (applyMask mask lat2 g)[i]?
        = some (List.zipWith (fun l x => if mask l then none else x) lrow grow) :=
    getElem?_zipWith_some h1 h3
  unfold cell?
  rw [hrow]
  exact getElem?_zipWith_some h2 h4

/-- A cell of `toOGrid` is the corresponding original cell, wrapped. -/
lemma cell?_toOGrid {u : QGrid} {i j : Nat} {x : ℚ}
    (h : cell? u i j = some x) : cell? (toOGrid u) i j = some (some x) := by
  obtain ⟨row, h1, h2⟩ := cell?_eq_some h
  have hrow : (toOGrid u)[i]? = some (row.map some) := by
    simp [toOGrid, h1]
  unfold cell?
  rw [hrow]
  simp [h2]

/-- The northern mask as a decidable proposition. -/
lemma if_northMask (l : ℚ) (a b : α) :
    (if northMask l then a else b) = if l < 0 ∨ l = 90 then a else b := by
  by_cases h : l < 0 ∨ l = 90
  · rcases h with h | h <;> simp [northMask, h]
  · push_neg at h
    simp [northMask, not_lt.mpr h.1, h.2]

/-- The southern mask as a decidable proposition. -/
lemma if_southMask (l : ℚ) (a b : α) :
    (if southMask l then a else b) = if l > 0 ∨ l = -90 then a else b := by
  by_cases h : l > 0 ∨ l = -90
  · rcases h with h | h <;> simp [southMask, h]
  · push_neg at h
    simp [southMask, h.1, h.2, h]

/-- Characterization of a successful `barbsSplit`: the four outputs are the
two masks applied to copies of `u`/`v` over the 2-dimensional latitude grid,
and only the southern render call carries `flip_barb`. -/
lemma barbsSplit_ok {lon lat : Grid} {u v : QGrid} {r : SplitResult}
    (h : barbsSplit lon lat u v = Except.ok r) :
    r.u_north = applyMask northMask r.lat2 (toOGrid u) ∧
    r.v_north = applyMask northMask r.lat2 (toOGrid v) ∧
    r.u_south = applyMask southMask r.lat2 (toOGrid u) ∧
    r.v_south = applyMask southMask r.lat2 (toOGrid v) ∧
    r.flip_north = false ∧ r.flip_south = true := by
  cases lon with
  | one lon1 =>
    cases lat with
    | one lat1 =>
      have hr : splitOn2D (meshgridX lon1 lat1) (meshgridY lon1 lat1) u v = r :=
        Except.ok.inj h
      subst hr
      simp [splitOn2D]
    | two lat2 => exact absurd h (by simp [barbsSplit])
  | two lon2 =>
    cases lat with
    | one lat1 => exact absurd h (by simp [barbsSplit])
    | two lat2 =>
      have hr : splitOn2D lon2 lat2 u v = r := Except.ok.inj h
      subst hr
      simp [splitOn2D]

/-- C2: on any successful split, a cell whose latitude satisfies `lat < 0` or
`lat = 90` holds the missing-value sentinel in `u_north`/`v_north`, and every
other cell holds the original `u`/`v` value unchanged. -/
theorem barbs_north_mask (lon lat : Grid) (u v : QGrid) (r : SplitResult)
    (hok : barbsSplit lon lat u v = Except.ok r)
    (i j : Nat) (l xu xv : ℚ)
    (hl : cell? r.lat2 i j = some l)
    (hu : cell? u i j = some xu) (hv : cell? v i j = some xv) :
    cell? r.u_north i j = some (if l < 0 ∨ l = 90 then none else some xu) ∧
    cell? r.v_north i j = some (if l < 0 ∨ l = 90 then none else some xv) := by
  obtain ⟨hun, hvn, -, -, -, -⟩ := barbsSplit_ok hok
  rw [hun, hvn]
  constructor
  · rw [cell?_applyMask hl (cell?_toOGrid hu), if_northMask]
  · rw [cell?_applyMask hl (cell?_toOGrid hv), if_northMask]

/-- Concrete split used to witness C2: a single cell at latitude −5. -/
def wNorth : SplitResult :=
  { lon2 := [[0]]
    lat2 := [[-5]]
    u_north := [[none]]
    v_north := [[none]]
    flip_north := false
    u_south := [[some 3]]
    v_south := [[some 4]]
    flip_south := true }

/-- Witness for C2 at the single-cell grid with latitude −5. -/
theorem barbs_north_mask_witness :
    barbsSplit (Grid.two [[0]]) (Grid.two [[-5]]) [[3]] [[4]] = Except.ok wNorth ∧
    cell? wNorth.lat2 0 0 = some (-5) ∧
    cell? [[(3 : ℚ)]] 0 0 = some 3 ∧ cell? [[(4 : ℚ)]] 0 0 = some 4 ∧
    (cell? wNorth.u_north 0 0
        = some (if (-5 : ℚ) < 0 ∨ (-5 : ℚ) = 90 then none else some 3) ∧
      cell? wNorth.v_north 0 0
        = some (if (-5 : ℚ) < 0 ∨ (-5 : ℚ) = 90 then none else some 4)) :=
  ⟨rfl, by decide, by decide, by decide,
    barbs_north_mask (Grid.two [[0]]) (Grid.two [[-5]]) [[3]] [[4]] wNorth
      rfl 0 0 (-5) 3 4 (by decide) (by decide) (by decide)⟩

/-- C3: on any successful split, a cell whose latitude satisfies `lat > 0` or
`lat = -90` holds the missing-value sentinel in `u_south`/`v_south`, every
other cell holds the original `u`/`v` value, and the southern render call alone
carries the flip flag. -/
theorem barbs_south_mask_flip (lon lat : Grid) (u v : QGrid) (r : SplitResult)
    (hok : barbsSplit lon lat u v = Except.ok r) :
    (∀ (i j : Nat) (l xu xv : ℚ),
      cell? r.lat2 i j = some l →
      cell? u i j = some xu → cell? v i j = some xv →
      cell? r.u_south i j = some (if l > 0 ∨ l = -90 then none else some xu) ∧
      cell? r.v_south i j = some (if l > 0 ∨ l = -90 then none else some xv)) ∧
    r.flip_south = true ∧ r.flip_north = false := by
  obtain ⟨-, -, hus, hvs, hfn, hfs⟩ := barbsSplit_ok hok
  refine ⟨fun i j l xu xv hl hu hv => ?_, hfs, hfn⟩
  rw [hus, hvs]
  constructor
  · rw [cell?_applyMask hl (cell?_toOGrid hu), if_southMask]
  · rw [cell?_applyMask hl (cell?_toOGrid hv), if_southMask]

/-- Concrete split used to witness C3: a single cell at latitude 45. -/
def wSouth : SplitResult :=
  { lon2 := [[0]]
    lat2 := [[45]]
    u_north := [[some 3]]
    v_north := [[some 4]]
    flip_north := false
    u_south := [[none]]
    v_south := [[none]]
    flip_south := true }

/-- Witness for C3 at the single-cell grid with latitude 45. -/
theorem barbs_south_mask_flip_witness :
    barbsSplit (Grid.two [[0]]) (Grid.two [[45]]) [[3]] [[4]] = Except.ok wSouth ∧
    cell? wSouth.lat2 0 0 = some 45 ∧
    cell? [[(3 : ℚ)]] 0 0 = some 3 ∧ cell? [[(4 : ℚ)]] 0 0 = some 4 ∧
    (cell? wSouth.u_south 0 0
        = some (if (45 : ℚ) > 0 ∨ (45 : ℚ) = -90 then none else some 3) ∧
      cell? wSouth.v_south 0 0
        = some (if (45 : ℚ) > 0 ∨ (45 : ℚ) = -90 then none else some 4)) ∧
    wSouth.flip_south = true ∧ wSouth.flip_north = false :=
  ⟨rfl, by decide, by decide, by decide,
    (barbs_south_mask_flip (Grid.two [[0]]) (Grid.two [[45]]) [[3]] [[4]] wSouth
        rfl).1 0 0 45 3 4 (by decide) (by decide) (by decide),
    (barbs_south_mask_flip (Grid.two [[0]]) (Grid.two [[45]]) [[3]] [[4]] wSouth
        rfl).2⟩

/-- C10: a cell at latitude exactly 0 is unmasked in all four outputs: the
equator keeps its original `u`/`v` values in both hemisphere copies. -/
theorem barbs_equator_unmasked (lon lat : Grid) (u v : QGrid) (r : SplitResult)
    (hok : barbsSplit lon lat u v = Except.ok r)
    (i j : Nat) (xu xv : ℚ)
    (hl : cell? r.lat2 i j = some 0)
    (hu : cell? u i j = some xu) (hv : cell? v i j = some xv) :
    cell? r.u_north i j = some (some xu) ∧
    cell? r.v_north i j = some (some xv) ∧
    cell? r.u_south i j = some (some xu) ∧
    cell? r.v_south i j = some (some xv) := by
  obtain ⟨hun, hvn, hus, hvs, -, -⟩ := barbsSplit_ok hok
  rw [hun, hvn, hus, hvs]
  refine ⟨?_, ?_, ?_, ?_⟩ <;>
    [rw [cell?_applyMask hl (cell?_toOGrid hu), if_northMask];
     rw [cell?_applyMask hl (cell?_toOGrid hv), if_northMask];
     rw [cell?_applyMask hl (cell?_toOGrid hu), if_southMask];
     rw [cell?_applyMask hl (cell?_toOGrid hv), if_southMask]] <;>
    norm_num

/-- Concrete split used to witness C10: a single cell on the equator. -/
def wEquator : SplitResult :=
  { lon2 := [[0]]
    lat2 := [[0]]
    u_north := [[some 3]]
    v_north := [[some 4]]
    flip_north := false
    u_south := [[some 3]]
    v_south := [[some 4]]
    flip_south := true }

/-- Witness for C10 at the single-cell grid on the equator. -/
theorem barbs_equator_unmasked_witness :
    barbsSplit (Grid.two [[0]]) (Grid.two [[0]]) [[3]] [[4]] = Except.ok wEquator ∧
    cell? wEquator.lat2 0 0 = some 0 ∧
    cell? [[(3 : ℚ)]] 0 0 = some 3 ∧ cell? [[(4 : ℚ)]] 0 0 = some 4 ∧
    (cell? wEquator.u_north 0 0 = some (some 3) ∧
      cell? wEquator.v_north 0 0 = some (some 4) ∧
      cell? wEquator.u_south 0 0 = some (some 3) ∧
      cell? wEquator.v_south 0 0 = some (some 4)) :=
  ⟨rfl, by decide, by decide, by decide,
    barbs_equator_unmasked (Grid.two [[0]]) (Grid.two [[0]]) [[3]] [[4]] wEquator
      rfl 0 0 3 4 (by decide) (by decide) (by decide)⟩

/-- C4: the split fails with the invalid-grid-shape error exactly when the
dimensionalities of lon and lat differ (one 1-dimensional, the other
2-dimensional); in particular a 1-dimensional lon of length 3 with a
2-dimensional lat of shape (4, 3) fails, while two 1-dimensional or two
2-dimensional inputs never do. -/
theorem barbs_invalid_grid_shape :
    (∀ (lon lat : Grid) (u v : QGrid),
      (∃ e, barbsSplit lon lat u v = Except.error e) ↔ lon.ndim ≠ lat.ndim) ∧
    (∃ e, barbsSplit (Grid.one [0, 10, 20])
        (Grid.two [[-90, -90, -90], [-45, -45, -45], [0, 0, 0], [45, 45, 45]])
        [[1, 1, 1]] [[1, 1, 1]] = Except.error e) ∧
    (∀ e, barbsSplit (Grid.one [0, 10]) (Grid.one [0]) [[1, 1]] [[1, 1]]
        ≠ Except.error e) ∧
    (∀ e, barbsSplit (Grid.two [[0]]) (Grid.two [[0]]) [[1]] [[1]]
        ≠ Except.error e) := by
  refine ⟨fun lon lat u v => ?_,
    ⟨"Both lon and lat must have the same number of dimensions", rfl⟩,
    fun e h => absurd h (by simp [barbsSplit]),
    fun e h => absurd h (by simp [barbsSplit])⟩
  cases lon <;> cases lat <;> simp [barbsSplit, Grid.ndim]

/-- C8: with two 1-dimensional arguments of lengths Nx and Ny, the split
mesh-expands them into 2-dimensional grids of shape (Ny, Nx) and masks over
the expanded latitude grid; with two 2-dimensional arguments they are used as
given. -/
theorem barbs_mesh_expansion :
    (∀ (lon1 lat1 : List ℚ) (u v : QGrid) (r : SplitResult),
      barbsSplit (Grid.one lon1) (Grid.one lat1) u v = Except.ok r →
      r.lon2 = meshgridX lon1 lat1 ∧ r.lat2 = meshgridY lon1 lat1 ∧
      r.lon2.length = lat1.length ∧ r.lat2.length = lat1.length ∧
      r.lon2.map List.length = List.replicate lat1.length lon1.length ∧
      r.lat2.map List.length = List.replicate lat1.length lon1.length ∧
      r.u_north = applyMask northMask (meshgridY lon1 lat1) (toOGrid u) ∧
      r.v_north = applyMask northMask (meshgridY lon1 lat1) (toOGrid v) ∧
      r.u_south = applyMask southMask (meshgridY lon1 lat1) (toOGrid u) ∧
      r.v_south = applyMask southMask (meshgridY lon1 lat1) (toOGrid v)) ∧
    (∀ (lonG latG u v : QGrid) (r : SplitResult),
      barbsSplit (Grid.two lonG) (Grid.two latG) u v = Except.ok r →
      r.lon2 = lonG ∧ r.lat2 = latG) := by
  constructor
  · intro lon1 lat1 u v r h
    have hr : splitOn2D (meshgridX lon1 lat1) (meshgridY lon1 lat1) u v = r :=
      Except.ok.inj h
    subst hr
    refine ⟨rfl, rfl, ?_, ?_, ?_, ?_, rfl, rfl, rfl, rfl⟩
    · simp [splitOn2D, meshgridX]
    · simp [splitOn2D, meshgridY]
    · simp [splitOn2D, meshgridX, List.map_map, Function.comp_def,
        List.map_const']
    · simp [splitOn2D, meshgridY, List.map_map, Function.comp_def,
        List.map_const']
  · intro lonG latG u v r h
    have hr : splitOn2D lonG latG u v = r := Except.ok.inj h
    subst hr
    exact ⟨rfl, rfl⟩

/-- Concrete split used to witness the 1-dimensional case of C8. -/
def wMesh : SplitResult :=
  { lon2 := [[0, 10]]
    lat2 := [[5, 5]]
    u_north := [[some 1, some 2]]
    v_north := [[some 3, some 4]]
    flip_north := false
    u_south := [[none, none]]
    v_south := [[none, none]]
    flip_south := true }

/-- Witness for C8: mesh expansion of `lon=[0,10]`, `lat=[5]`, and the
identity behavior on a 2-dimensional pair. -/
theorem barbs_mesh_expansion_witness :
    (barbsSplit (Grid.one [0, 10]) (Grid.one [5]) [[1, 2]] [[3, 4]]
        = Except.ok wMesh ∧
      (wMesh.lon2 = meshgridX [0, 10] [5] ∧ wMesh.lat2 = meshgridY [0, 10] [5] ∧
        wMesh.lon2.length = ([5] : List ℚ).length ∧
        wMesh.lat2.length = ([5] : List ℚ).length ∧
        wMesh.lon2.map List.length
          = List.replicate ([5] : List ℚ).length ([0, 10] : List ℚ).length ∧
        wMesh.lat2.map List.length
          = List.replicate ([5] : List ℚ).length ([0, 10] : List ℚ).length ∧
        wMesh.u_north = applyMask northMask (meshgridY [0, 10] [5]) (toOGrid [[1, 2]]) ∧
        wMesh.v_north = applyMask northMask (meshgridY [0, 10] [5]) (toOGrid [[3, 4]]) ∧
        wMesh.u_south = applyMask southMask (meshgridY [0, 10] [5]) (toOGrid [[1, 2]]) ∧
        wMesh.v_south = applyMask southMask (meshgridY [0, 10] [5]) (toOGrid [[3, 4]]))) ∧
    (barbsSplit (Grid.two [[7]]) (Grid.two [[8]]) [[1]] [[1]]
        = Except.ok (splitOn2D [[7]] [[8]] [[1]] [[1]]) ∧
      ((splitOn2D [[7]] [[8]] [[1]] [[1]]).lon2 = [[7]] ∧
        (splitOn2D [[7]] [[8]] [[1]] [[1]]).lat2 = [[8]])) :=
  ⟨⟨rfl, barbs_mesh_expansion.1 [0, 10] [5] [[1, 2]] [[3, 4]] wMesh rfl⟩,
   ⟨rfl, barbs_mesh_expansion.2 [[7]] [[8]] [[1]] [[1]]
      (splitOn2D [[7]] [[8]] [[1]] [[1]]) rfl⟩⟩

/-- 1-dimensional lon of the spec's worked example. -/
def exLon : List ℚ := [0, 10]

/-- 1-dimensional lat of the spec's worked example. -/
def exLat : List ℚ := [-90, -45, 0, 45, 90]

/-- The constant-1 grid on the 5×2 mesh of the worked example. -/
def exOnes : QGrid := List.replicate 5 (List.replicate 2 1)

/-- The split of the worked example. -/
def exSplit : Except String SplitResult :=
  barbsSplit (Grid.one exLon) (Grid.one exLat) exOnes exOnes

/-- Projection of one cell of one output grid of a split, for stating concrete
facts about `exSplit`. -/
def exCell (x : Except String SplitResult) (f : SplitResult → OGrid)
    (i j : Nat) : Option (Option ℚ) :=
  match x with
  | .ok r => cell? (f r) i j
  | .error _ => none

/-- Counterexample to C6 as stated: in the worked example the north outputs
are missing-marked (not 1.0) at row 1, the row with lat −45, and the south
outputs are missing-marked (not 1.0) at row 0, the row with lat −90. -/
theorem barbs_example_counterexample :
    exCell exSplit SplitResult.u_north 1 0 = some none ∧
    exCell exSplit SplitResult.v_north 1 1 = some none ∧
    exCell exSplit SplitResult.u_south 0 0 = some none ∧
    exCell exSplit SplitResult.v_south 0 1 = some none ∧
    some (none : Option ℚ) ≠ some (some (1 : ℚ)) := by decide

/-- C6 amended: in the worked example the north outputs retain 1.0 exactly in
the rows with lat in {0, 45} and are missing-marked in the rows with lat in
{−90, −45, 90}; the south outputs retain 1.0 exactly in the rows with lat in
{−45, 0} and are missing-marked in the rows with lat in {−90, 45, 90}. -/
theorem barbs_example_amended :
    exSplit = Except.ok
      { lon2 := [[0, 10], [0, 10], [0, 10], [0, 10], [0, 10]]
        lat2 := [[-90, -90], [-45, -45], [0, 0], [45, 45], [90, 90]]
        u_north := [[none, none], [none, none], [some 1, some 1],
          [some 1, some 1], [none, none]]
        v_north := [[none, none], [none, none], [some 1, some 1],
          [some 1, some 1], [none, none]]
        flip_north := false
        u_south := [[none, none], [some 1, some 1], [some 1, some 1],
          [none, none], [none, none]]
        v_south := [[none, none], [some 1, some 1], [some 1, some 1],
          [none, none], [none, none]]
        flip_south := true } := rfl

/-! ## Storage model for the copies made by `Map.barbs`

To state that the split never mutates the caller's `u`/`v` arrays, arrays are
modelled as references into a heap of grids.  `u.copy()` allocates a fresh
slot holding the same values, and the masked assignment writes through the
fresh reference only, as in the source. -/

/-- A heap of array objects; a reference is an index into `cells`. -/
structure Heap where
  cells : List OGrid

/-- Dereference: the grid held by reference `r` (empty when dangling). -/
def Heap.read (h : Heap) (r : Nat) : OGrid :=
  (h.cells[r]?).getD []

/-- `copy()`: allocate a fresh slot holding `g`, returning the new heap and
the fresh reference. -/
def Heap.alloc (h : Heap) (g : OGrid) : Heap × Nat :=
  (⟨h.cells ++ [g]⟩, h.cells.length)

/-- In-place update of the array behind reference `r`. -/
def Heap.write (h : Heap) (r : Nat) (g : OGrid) : Heap :=
  ⟨h.cells.set r g⟩

/-- One `x = src.copy(); x[mask] = np.nan` step of `Map.barbs`: allocate a
copy of the source array, then write the masked grid through the fresh
reference. -/
def copyMask (mask : ℚ → Bool) (lat2 : QGrid) (src : Nat) (h : Heap) :
    Heap × Nat :=
  let a := h.alloc (h.read src)
  ((a.1).write a.2 (applyMask mask lat2 ((a.1).read a.2)), a.2)

/-- The four copy-and-mask statements of `Map.barbs`, in source order:
`u_nh`, `v_nh`, `u_sh`, `v_sh`.  Returns the final heap and the four fresh
references. -/
def barbsMaskHeap (lat2 : QGrid) (ru rv : Nat) (h0 : Heap) :
    Heap × Nat × Nat × Nat × Nat :=
  let s1 := copyMask northMask lat2 ru h0
  let s2 := copyMask northMask lat2 rv s1.1
  let s3 := copyMask southMask lat2 ru s2.1
  let s4 := copyMask southMask lat2 rv s3.1
  (s4.1, s1.2, s2.2, s3.2, s4.2)

/-- Setting the freshly appended slot replaces only that slot. -/
lemma set_append_singleton (l : List α) (a b : α) :
    (l ++ [a]).set l.length b = l ++ [b] := by
  induction l with
  | nil => rfl
  | cons x xs ih => simp [ih]

/-- A `copyMask` step appends exactly one masked copy of the source array and
returns the fresh reference to it. -/
lemma copyMask_cells (mask : ℚ → Bool) (lat2 : QGrid) (src : Nat) (h : Heap) :
    (copyMask mask lat2 src h).1.cells
      = h.cells ++ [applyMask mask lat2 (h.read src)] ∧
    (copyMask mask lat2 src h).2 = h.cells.length := by
  constructor
  · show ((h.cells ++ [h.read src]).set h.cells.length
      (applyMask mask lat2
        (((h.cells ++ [h.read src])[h.cells.length]?).getD []))) = _
    rw [List.getElem?_concat_length, Option.getD_some, set_append_singleton]
  · rfl

/-- A `copyMask` step leaves every previously allocated array untouched. -/
lemma copyMask_read_lt (mask : ℚ → Bool) (lat2 : QGrid) (src : Nat) (h : Heap)
    {r : Nat} (hr : r < h.cells.length) :
    (copyMask mask lat2 src h).1.read r = h.read r := by
  rw [Heap.read, (copyMask_cells mask lat2 src h).1,
    List.getElem?_append_left hr, Heap.read]

/-- A `copyMask` step grows the heap by one slot. -/
lemma copyMask_length (mask : ℚ → Bool) (lat2 : QGrid) (src : Nat) (h : Heap) :
    (copyMask mask lat2 src h).1.cells.length = h.cells.length + 1 := by
  rw [(copyMask_cells mask lat2 src h).1]
  simp

/-- Reading the fresh reference of a `copyMask` step yields the masked copy of
the source array as it was at the step. -/
lemma copyMask_read_new (mask : ℚ → Bool) (lat2 : QGrid) (src : Nat) (h : Heap) :
    (copyMask mask lat2 src h).1.read (copyMask mask lat2 src h).2
      = applyMask mask lat2 (h.read src) := by
  rw [Heap.read, (copyMask_cells mask lat2 src h).1,
    (copyMask_cells mask lat2 src h).2, List.getElem?_concat_length,
    Option.getD_some]


/-- C9: the split never mutates the caller's `u`/`v` arrays: for valid
references `ru`/`rv`, after the four copy-and-mask statements the arrays
behind `ru` and `rv` hold exactly their original values, each of the four
returned references is a fresh slot (so the outputs occupy independent
storage), and each fresh slot holds the mask applied to a copy of the
input taken before masking. -/
theorem barbs_no_input_mutation (lat2 : QGrid) (ru rv : Nat) (h0 : Heap)
    (hru : ru < h0.cells.length) (hrv : rv < h0.cells.length) :
    ((barbsMaskHeap lat2 ru rv h0).1).read ru = h0.read ru ∧
    ((barbsMaskHeap lat2 ru rv h0).1).read rv = h0.read rv ∧
    ((barbsMaskHeap lat2 ru rv h0).2.1 = h0.cells.length ∧
      (barbsMaskHeap lat2 ru rv h0).2.2.1 = h0.cells.length + 1 ∧
      (barbsMaskHeap lat2 ru rv h0).2.2.2.1 = h0.cells.length + 2 ∧
      (barbsMaskHeap lat2 ru rv h0).2.2.2.2 = h0.cells.length + 3) ∧
    ((barbsMaskHeap lat2 ru rv h0).1).read ((barbsMaskHeap lat2 ru rv h0).2.1)
      = applyMask northMask lat2 (h0.read ru) ∧
    ((barbsMaskHeap lat2 ru rv h0).1).read ((barbsMaskHeap lat2 ru rv h0).2.2.1)
      = applyMask northMask lat2 (h0.read rv) ∧
    ((barbsMaskHeap lat2 ru rv h0).1).read ((barbsMaskHeap lat2 ru rv h0).2.2.2.1)
      = applyMask southMask lat2 (h0.read ru) ∧
    ((barbsMaskHeap lat2 ru rv h0).1).read ((barbsMaskHeap lat2 ru rv h0).2.2.2.2)
      = applyMask southMask lat2 (h0.read rv) := by
  simp only [barbsMaskHeap]
  set h1 := (copyMask northMask lat2 ru h0).1 with hh1
  set n1 := (copyMask northMask lat2 ru h0).2 with hn1
  set h2 := (copyMask northMask lat2 rv h1).1 with hh2
  set n2 := (copyMask northMask lat2 rv h1).2 with hn2
  set h3 := (copyMask southMask lat2 ru h2).1 with hh3
  set n3 := (copyMask southMask lat2 ru h2).2 with hn3
  set h4 := (copyMask southMask lat2 rv h3).1 with hh4
  set n4 := (copyMask southMask lat2 rv h3).2 with hn4
  have L1 : h1.cells.length = h0.cells.length + 1 :=
    copyMask_length northMask lat2 ru h0
  have L2 : h2.cells.length = h1.cells.length + 1 :=
    copyMask_length northMask lat2 rv h1
  have L3 : h3.cells.length = h2.cells.length + 1 :=
    copyMask_length southMask lat2 ru h2
  have I1 : n1 = h0.cells.length := (copyMask_cells northMask lat2 ru h0).2
  have I2 : n2 = h0.cells.length + 1 := by
    rw [hn2, (copyMask_cells northMask lat2 rv h1).2, L1]
  have I3 : n3 = h0.cells.length + 2 := by
    rw [hn3, (copyMask_cells southMask lat2 ru h2).2, L2, L1]
  have I4 : n4 = h0.cells.length + 3 := by
    rw [hn4, (copyMask_cells southMask lat2 rv h3).2, L3, L2, L1]
  have RU : h4.read ru = h0.read ru := by
    rw [hh4, copyMask_read_lt southMask lat2 rv h3 (by omega),
      hh3, copyMask_read_lt southMask lat2 ru h2 (by omega),
      hh2, copyMask_read_lt northMask lat2 rv h1 (by omega),
      hh1, copyMask_read_lt northMask lat2 ru h0 hru]
  have RV : h4.read rv = h0.read rv := by
    rw [hh4, copyMask_read_lt southMask lat2 rv h3 (by omega),
      hh3, copyMask_read_lt southMask lat2 ru h2 (by omega),
      hh2, copyMask_read_lt northMask lat2 rv h1 (by omega),
      hh1, copyMask_read_lt northMask lat2 ru h0 hrv]
  have R1V : h1.read rv = h0.read rv := by
    rw [hh1, copyMask_read_lt northMask lat2 ru h0 hrv]
  have R2U : h2.read ru = h0.read ru := by
    rw [hh2, copyMask_read_lt northMask lat2 rv h1 (by omega),
      hh1, copyMask_read_lt northMask lat2 ru h0 hru]
  have R3V : h3.read rv = h0.read rv := by
    rw [hh3, copyMask_read_lt southMask lat2 ru h2 (by omega),
      hh2, copyMask_read_lt northMask lat2 rv h1 (by omega), R1V]
  have N1 : h4.read n1 = applyMask northMask lat2 (h0.read ru) := by
    rw [hh4, copyMask_read_lt southMask lat2 rv h3 (by omega),
      hh3, copyMask_read_lt southMask lat2 ru h2 (by omega),
      hh2, copyMask_read_lt northMask lat2 rv h1 (by omega),
      hh1, hn1, copyMask_read_new northMask lat2 ru h0]
  have N2 : h4.read n2 = applyMask northMask lat2 (h0.read rv) := by
    rw [hh4, copyMask_read_lt southMask lat2 rv h3 (by omega),
      hh3, copyMask_read_lt southMask lat2 ru h2 (by omega),
      hh2, hn2, copyMask_read_new northMask lat2 rv h1, R1V]
  have N3 : h4.read n3 = applyMask southMask lat2 (h0.read ru) := by
    rw [hh4, copyMask_read_lt southMask lat2 rv h3 (by omega),
      hh3, hn3, copyMask_read_new southMask lat2 ru h2, R2U]
  have N4 : h4.read n4 = applyMask southMask lat2 (h0.read rv) := by
    rw [hh4, hn4, copyMask_read_new southMask lat2 rv h3, R3V]
  exact ⟨RU, RV, ⟨I1, I2, I3, I4⟩, N1, N2, N3, N4⟩

/-- Concrete heap used to witness C9: two one-cell arrays `u` and `v`. -/
def wHeap : Heap := ⟨[[[some 3]], [[some 4]]]⟩

/-- Witness for C9 on a heap holding one-cell `u`/`v` arrays, split over a
single-cell latitude grid at −5. -/
theorem barbs_no_input_mutation_witness :
    (0 < wHeap.cells.length ∧ 1 < wHeap.cells.length) ∧
    (((barbsMaskHeap [[-5]] 0 1 wHeap).1).read 0 = wHeap.read 0 ∧
      ((barbsMaskHeap [[-5]] 0 1 wHeap).1).read 1 = wHeap.read 1 ∧
      ((barbsMaskHeap [[-5]] 0 1 wHeap).2.1 = wHeap.cells.length ∧
        (barbsMaskHeap [[-5]] 0 1 wHeap).2.2.1 = wHeap.cells.length + 1 ∧
        (barbsMaskHeap [[-5]] 0 1 wHeap).2.2.2.1 = wHeap.cells.length + 2 ∧
        (barbsMaskHeap [[-5]] 0 1 wHeap).2.2.2.2 = wHeap.cells.length + 3) ∧
      ((barbsMaskHeap [[-5]] 0 1 wHeap).1).read
          ((barbsMaskHeap [[-5]] 0 1 wHeap).2.1)
        = applyMask northMask [[-5]] (wHeap.read 0) ∧
      ((barbsMaskHeap [[-5]] 0 1 wHeap).1).read
          ((barbsMaskHeap [[-5]] 0 1 wHeap).2.2.1)
        = applyMask northMask [[-5]] (wHeap.read 1) ∧
      ((barbsMaskHeap [[-5]] 0 1 wHeap).1).read
          ((barbsMaskHeap [[-5]] 0 1 wHeap).2.2.2.1)
        = applyMask southMask [[-5]] (wHeap.read 0) ∧
      ((barbsMaskHeap [[-5]] 0 1 wHeap).1).read
          ((barbsMaskHeap [[-5]] 0 1 wHeap).2.2.2.2)
        = applyMask southMask [[-5]] (wHeap.read 1)) :=
  ⟨⟨by decide, by decide⟩,
    barbs_no_input_mutation [[-5]] 0 1 wHeap (by decide) (by decide)⟩
